import Mathlib

/-!
Verification of the bruteforce sensor-network dashboard (a Next.js + Firebase
realtime-database application) against its natural-language specification.

The realtime store is modelled as association lists keyed by path segments;
point writes are `alSet`, point reads `alGet`.  JavaScript values that matter
to the claims (dual second-string / millisecond-number timestamps, falsy
checks, `parseFloat` results) are modelled with explicit inductive types.
Numbers are modelled as `Rat` (the code never relies on float rounding) and
fallible handlers return the unchanged store together with an error tag.
-/

namespace Bruteforce

/-- Point read in an association-list store (first binding wins, as in a
key-value store where keys are unique). -/
def alGet {α β : Type} [DecidableEq α] : List (α × β) → α → Option β
  | [], _ => none
  | (k, v) :: rest, k' => if k = k' then some v else alGet rest k'

/-- Point write: overwrite the binding for `k` if present, else append. -/
def alSet {α β : Type} [DecidableEq α] : List (α × β) → α → β → List (α × β)
  | [], k, v => [(k, v)]
  | (k', v') :: rest, k, v =>
      if k' = k then (k, v) :: rest else (k', v') :: alSet rest k v

theorem alGet_alSet_self {α β : Type} [DecidableEq α]
    (l : List (α × β)) (k : α) (v : β) : alGet (alSet l k v) k = some v := by
  induction l with
  | nil => simp [alSet, alGet]
  | cons hd tl ih =>
      by_cases h : hd.1 = k
      · simp [alSet, h, alGet]
      · simp [alSet, h, alGet, ih]

theorem alGet_alSet_ne {α β : Type} [DecidableEq α]
    (l : List (α × β)) (k k' : α) (v : β) (h : k ≠ k') :
    alGet (alSet l k v) k' = alGet l k' := by
  induction l with
  | nil => simp [alSet, alGet, h]
  | cons hd tl ih =>
      by_cases h1 : hd.1 = k
      · obtain ⟨hk, hv⟩ := hd
        simp only at h1
        subst h1
        simp [alSet, alGet, h]
      · obtain ⟨hk, hv⟩ := hd
        simp only at h1
        simp [alSet, alGet, h1, ih]

/-- After folding point writes of the same value `v` at keys `f m` for `m` in
`l`, the key `f n` holds `v` provided `n ∈ l` or it held `v` already. -/
theorem alGet_foldl_alSet {α β γ : Type} [DecidableEq α] (f : γ → α) (v : β) :
    ∀ (l : List γ) (al : List (α × β)) (n : γ),
      (n ∈ l ∨ alGet al (f n) = some v) →
      alGet (l.foldl (fun acc m => alSet acc (f m) v) al) (f n) = some v := by
  intro l
  induction l with
  | nil =>
      intro al n h
      rcases h with h | h
      · cases h
      · simpa using h
  | cons m t ih =>
      intro al n h
      simp only [List.foldl_cons]
      apply ih
      rcases h with h | h
      · rcases List.mem_cons.mp h with h1 | h1
        · subst h1
          exact Or.inr (alGet_alSet_self ..)
        · exact Or.inl h1
      · by_cases he : f m = f n
        · rw [← he] at h ⊢
          exact Or.inr (alGet_alSet_self ..)
        · rw [alGet_alSet_ne _ _ _ _ he]
          exact Or.inr h

/-- Node status as classified by the dashboard code. -/
inductive NodeStatus
  | online
  | warning
  | offline
deriving DecidableEq

/-- A `lastUpdate` value as it arrives from the store: absent (`null` /
`undefined`, falsy in JS), a decimal string holding epoch seconds (strings
are truthy, including the string of 0), or a number holding epoch
milliseconds (the number 0 is falsy). -/
inductive JSTime
  | null
  | str (secs : Nat)
  | num (ms : Nat)
deriving DecidableEq

end Bruteforce

namespace Bruteforce.Utils

/-- `getNodeStatus` from `src/Website/src/lib/utils.js` (lines 32-51): falsy
input is offline; a string is seconds and multiplied by 1000; online iff the
difference to `now` is under five minutes, otherwise offline.  `warning` is
never produced here. -/
def getNodeStatus (lastUpdate : JSTime) (now : Nat) : NodeStatus :=
  match lastUpdate with
  | .null => .offline
  | .str secs =>
      if (now : Int) - ((secs * 1000 : Nat) : Int) < 5 * 60 * 1000 then .online
      else .offline
  | .num ms =>
      if ms = 0 then .offline
      else if (now : Int) - (ms : Int) < 5 * 60 * 1000 then .online
      else .offline

/-- `isValidLatitude` from `lib/utils.js` (lines 90-93); the `parseFloat` /
`isNaN` handling of raw strings is carried by `Option Rat` at call sites. -/
def isValidLatitude (lat : Rat) : Bool :=
  decide (-90 ≤ lat) && decide (lat ≤ 90)

/-- `isValidLongitude` from `lib/utils.js` (lines 98-101). -/
def isValidLongitude (lng : Rat) : Bool :=
  decide (-180 ≤ lng) && decide (lng ≤ 180)

/-- `phone.replace(/\D/g, '')`: keep only the decimal digits. -/
def cleanedDigits (phone : String) : String :=
  ⟨phone.data.filter Char.isDigit⟩

/-- `cleaned.startsWith('91')` on the digit-only string. -/
def startsWith91 (s : String) : Bool :=
  match s.data with
  | '9' :: '1' :: _ => true
  | _ => false

/-- `isValidPhoneNumber` from `lib/utils.js` (lines 106-110). -/
def isValidPhoneNumber (phone : String) : Bool :=
  let cleaned := cleanedDigits phone
  cleaned.length = 10 || (cleaned.length = 12 && startsWith91 cleaned)

/-- `formatPhoneNumber` from `lib/utils.js` (lines 115-124). -/
def formatPhoneNumber (phone : String) : String :=
  let cleaned := cleanedDigits phone
  if cleaned.length = 10 then "+91" ++ cleaned
  else if cleaned.length = 12 && startsWith91 cleaned then "+" ++ cleaned
  else phone

end Bruteforce.Utils

namespace Bruteforce.HomePage

/-- The local `getNodeStatus` of `src/Website/src/app/page.js` (lines 34-50):
same falsy and seconds-string handling as the shared one, but with a middle
`warning` tier up to fifteen minutes. -/
def getNodeStatus (lastUpdate : JSTime) (now : Nat) : NodeStatus :=
  match lastUpdate with
  | .null => .offline
  | .str secs =>
      if (now : Int) - ((secs * 1000 : Nat) : Int) < 5 * 60 * 1000 then .online
      else if (now : Int) - ((secs * 1000 : Nat) : Int) < 15 * 60 * 1000 then .warning
      else .offline
  | .num ms =>
      if ms = 0 then .offline
      else if (now : Int) - (ms : Int) < 5 * 60 * 1000 then .online
      else if (now : Int) - (ms : Int) < 15 * 60 * 1000 then .warning
      else .offline

end Bruteforce.HomePage

namespace Bruteforce

/-- Node `metadata` subtree as written by the register page. -/
structure Metadata where
  nodeId : String
  type : String
  name : String
  latitude : Rat
  longitude : Rat
  altitude : Option Rat
  installedDate : String
  installedBy : String
  description : String
  nearbyNodes : List String
  status : String
  createdAt : Nat
deriving DecidableEq

/-- Node `realtime` subtree as initialised by the register page. -/
structure Realtime where
  temperature : Rat
  pressure : Rat
  altitude : Rat
  humidity : Option Rat
  rssi : Option Rat
  status : String
  lastUpdate : JSTime
deriving DecidableEq

/-- A whole `nodes/{id}` subtree.  History entries are timestamped readings;
their value shape is irrelevant to every claim, so a reading is kept as a
bare rational. -/
structure NodeData where
  metadata : Metadata
  realtime : Realtime
  history : List (Nat × Rat)
deriving DecidableEq

/-- An `alerts/{id}` record with the fields written by the analytical
panel's `handleCreateAlert`. -/
structure Alert where
  id : String
  type : String
  severity : String
  message : String
  affectedNodes : List String
  timestamp : Nat
  acknowledged : Bool
  acknowledgedBy : Option String
  acknowledgedAt : Option Nat
  sentSMS : Bool
  smsSentAt : Option Nat
  recipients : List String
  createdBy : String
  source : String
deriving DecidableEq

/-- The back-reference record written at `nodes/{nodeId}/alerts/{alertId}`. -/
structure NodeAlertRef where
  alertId : String
  severity : String
  timestamp : Nat
  acknowledged : Bool
deriving DecidableEq

/-- A `contacts/{id}` record as written by the contacts page. -/
structure Contact where
  id : String
  name : String
  phone : String
  email : String
  associatedNodes : List String
  notificationPreference : String
  createdAt : Nat
  lastUpdated : Nat
deriving DecidableEq

/-- A `logs/{id}` record; the free-form `metadata` object attached by some
call sites carries no information any claim depends on and is omitted. -/
structure LogEntry where
  id : String
  type : String
  message : String
  timestamp : Nat
deriving DecidableEq

/-- A `notifications/{id}` record as written by `lib/notifications.js`;
fields that only some paths set are optional. -/
structure NotificationRec where
  id : String
  type : String
  status : String
  alertId : String
  severity : String
  message : String
  recipients : List String
  timestamp : Nat
  method : String
  deliveryStatus : String
  successCount : Option Nat
  failureCount : Option Nat
deriving DecidableEq

/-- The realtime store, flattened by entity.  Back-reference paths
`nodes/{nodeId}/alerts/{alertId}` are kept in `nodeAlerts` keyed by the pair
of path segments, which is the same path-to-value map Firebase holds. -/
structure Store where
  nodes : List (String × NodeData)
  nodeAlerts : List ((String × String) × NodeAlertRef)
  alerts : List (String × Alert)
  contacts : List (String × Contact)
  logs : List (String × LogEntry)
  notifications : List (String × NotificationRec)
deriving DecidableEq

/-- The error taxonomy of the spec; the code throws plain `Error`s whose
messages fall into these categories. -/
inductive AppError
  | validation
  | duplicateId
  | verification
deriving DecidableEq

/-- Result of a handler: the store after the operation (unchanged when the
handler failed before any write) plus the surfaced error, if any. -/
structure OpResult where
  store : Store
  error : Option AppError
deriving DecidableEq

/-- `get(ref(database, nodes/id)).exists()`: in Firebase a path exists when
any value lives under it, so a node id exists when its subtree or any of its
alert back-references is present. -/
def nodePathExists (s : Store) (id : String) : Bool :=
  (alGet s.nodes id).isSome || s.nodeAlerts.any (fun e => e.1.1 = id)

end Bruteforce

namespace Bruteforce.Register

open Bruteforce

/-- The registration form of `src/Website/src/app/register/page.js`.  Raw
text fields that the code feeds to `parseFloat` are modelled as `Option
Rat`: `none` stands for an empty field or one that parses to `NaN`.  The
comma-separated `nearbyNodes` field is modelled already split, as the code
splits it before writing and no claim depends on the splitting. -/
structure RegForm where
  nodeId : String
  type : String
  name : String
  latitude : Option Rat
  longitude : Option Rat
  altitude : Option Rat
  installedBy : String
  description : String
  nearbyNodes : List String
deriving DecidableEq

/-- `validateForm` (register page lines 86-132): duplicate-id point read
first, then required fields, then missing or unparseable coordinates, then
range checks.  Returns the error surfaced, or `none` when valid. -/
def validateForm (s : Store) (f : RegForm) : Option AppError :=
  if nodePathExists s f.nodeId then some .duplicateId
  else if f.nodeId = "" || f.name = "" then some .validation
  else
    match f.latitude with
    | none => some .validation
    | some lat =>
        match f.longitude with
        | none => some .validation
        | some lon =>
            if !Utils.isValidLatitude lat then some .validation
            else if !Utils.isValidLongitude lon then some .validation
            else none

/-- The `{metadata, realtime, history}` object the register page writes at
`nodes/{id}` (register page lines 167-198): the entered metadata plus
zeroed realtime defaults whose `lastUpdate` is the current epoch-seconds
string. -/
def nodeRecord (f : RegForm) (latitude longitude : Rat) (nowMs : Nat)
    (nowIso : String) : NodeData :=
  { metadata :=
      { nodeId := f.nodeId
        type := f.type
        name := f.name
        latitude := latitude
        longitude := longitude
        altitude := f.altitude
        installedDate := nowIso
        installedBy := if f.installedBy = "" then "Unknown" else f.installedBy
        description := f.description
        nearbyNodes := f.nearbyNodes
        status := "active"
        createdAt := nowMs }
    realtime :=
      { temperature := 0
        pressure := 0
        altitude := match f.altitude with | some a => a | none => 0
        humidity := if f.type = "gateway" then some 0 else none
        rssi := if f.type = "gateway" then none else some 0
        status := "offline"
        lastUpdate := JSTime.str (nowMs / 1000) }
    history := [] }

/-- `handleSubmit` (register page lines 134-259): validate, build metadata
and zeroed realtime defaults, write `nodes/{id}`, then read the record back
and fail with a verification error if the coordinates read back falsy (the
JS check `!savedData.metadata.latitude`, which the number 0 also fails) or
as a wrong type. -/
def handleSubmit (s : Store) (f : RegForm) (nowMs : Nat) (nowIso : String) :
    OpResult :=
  match validateForm s f with
  | some e => ⟨s, some e⟩
  | none =>
      match f.latitude, f.longitude with
      | some latitude, some longitude =>
          let nodeData := nodeRecord f latitude longitude nowMs nowIso
          let s1 : Store := { s with nodes := alSet s.nodes f.nodeId nodeData }
          match alGet s1.nodes f.nodeId with
          | none => ⟨s1, some .verification⟩
          | some saved =>
              if saved.metadata.latitude = 0 || saved.metadata.longitude = 0 then
                ⟨s1, some .verification⟩
              else ⟨s1, none⟩
      | _, _ => ⟨s, some .validation⟩

end Bruteforce.Register

namespace Bruteforce.Admin

open Bruteforce

/-- The alert-creation form state of the analytical panel. -/
structure AlertForm where
  message : String
  severity : String
  affectedNodes : List String
  sendSMS : Bool
deriving DecidableEq

/-- The recipients computation of `src/Website/src/app/admin/page.js`
(lines 176-189): an empty affected-node list yields no recipients, else the
contacts whose `associatedNodes` contains some affected node id. -/
def computeRecipients (affectedNodes : List String)
    (contacts : List (String × Contact)) : List Contact :=
  if affectedNodes.isEmpty then []
  else
    (contacts.map Prod.snd).filter
      (fun c => c.associatedNodes.any (fun nid => affectedNodes.contains nid))

/-- The `alertData` object `handleCreateAlert` builds (admin page lines
336-351); `recipients` holds the phones of the computed recipient
contacts. -/
def alertRecord (form : AlertForm) (alertId : String) (now : Nat)
    (contacts : List (String × Contact)) : Alert :=
  { id := alertId
    type := "manual"
    severity := form.severity
    message := form.message
    affectedNodes := form.affectedNodes
    timestamp := now
    acknowledged := false
    acknowledgedBy := none
    acknowledgedAt := none
    sentSMS := form.sendSMS
    smsSentAt := if form.sendSMS then some now else none
    recipients := (computeRecipients form.affectedNodes contacts).map Contact.phone
    createdBy := "analytical"
    source := "analytical_panel" }

/-- The back-reference record written per affected node (admin page lines
367-376); the same value is written for each node. -/
def backRef (form : AlertForm) (alertId : String) (now : Nat) : NodeAlertRef :=
  { alertId := alertId
    severity := form.severity
    timestamp := now
    acknowledged := false }

/-- `handleCreateAlert` (admin page lines 317-392, up to the log write):
validate message length and node selection, write `alerts/{alertId}`, read
it back, write a back-reference at `nodes/{nodeId}/alerts/{alertId}` for
every affected node, then write a log entry.  The notification dispatch the
handler continues with is modelled separately (`sendSMSNotification`); its
outcome does not affect whether the alert is created. -/
def handleCreateAlert (s : Store) (form : AlertForm)
    (alertId logId : String) (now : Nat) : OpResult :=
  if 500 < form.message.length then ⟨s, some .validation⟩
  else if form.affectedNodes.isEmpty then ⟨s, some .validation⟩
  else
    let alertData := alertRecord form alertId now s.contacts
    let s1 : Store := { s with alerts := alSet s.alerts alertId alertData }
    match alGet s1.alerts alertId with
    | none => ⟨s1, some .verification⟩
    | some _ =>
        let s2 : Store :=
          { s1 with
            nodeAlerts :=
              form.affectedNodes.foldl
                (fun acc nodeId => alSet acc (nodeId, alertId) (backRef form alertId now))
                s1.nodeAlerts }
        let s3 : Store :=
          { s2 with
            logs := alSet s2.logs logId
              { id := logId
                type := "alert_triggered"
                message := "Manual alert created"
                timestamp := now } }
        ⟨s3, none⟩

end Bruteforce.Admin

namespace Bruteforce.Contacts

open Bruteforce

/-- The contact form of `src/Website/src/app/contacts/page.js`. -/
structure ContactForm where
  name : String
  phone : String
  email : String
  associatedNodes : List String
  notificationPreference : String
deriving DecidableEq

/-- `handleSubmit` (contacts page lines 56-97): reject an invalid phone
number before any write, else store the contact with the phone normalized
by `formatPhoneNumber`. -/
def handleSubmit (s : Store) (f : ContactForm) (contactId : String)
    (now : Nat) : OpResult :=
  if !Utils.isValidPhoneNumber f.phone then ⟨s, some .validation⟩
  else
    let contactData : Contact :=
      { id := contactId
        name := f.name
        phone := Utils.formatPhoneNumber f.phone
        email := f.email
        associatedNodes := f.associatedNodes
        notificationPreference := f.notificationPreference
        createdAt := now
        lastUpdated := now }
    ⟨{ s with contacts := alSet s.contacts contactId contactData }, none⟩

end Bruteforce.Contacts

namespace Bruteforce

/-- A JavaScript value sitting in a node's latitude or longitude slot:
absent, a number, or a string that does not parse as a number (for which
`isNaN` coerces to true). -/
inductive JSNum
  | undef
  | num (q : Rat)
  | nonNumStr (s : String)
deriving DecidableEq

/-- JS truthiness of such a value: `undefined` is falsy, a number is truthy
unless it is 0, a string is truthy unless empty. -/
def truthy : JSNum → Bool
  | .undef => false
  | .num q => decide (q ≠ 0)
  | .nonNumStr s => decide (s ≠ "")

/-- `isNaN(v)` with JS coercion: true for `undefined` and for strings that
do not parse as numbers, false for numbers. -/
def jsIsNaN : JSNum → Bool
  | .undef => true
  | .num _ => false
  | .nonNumStr _ => true

/-- The metadata slots the map component reads. -/
structure MapNodeMeta where
  latitude : JSNum
  longitude : JSNum
deriving DecidableEq

/-- A node record as the map component receives it; `metadata` itself may be
absent (`node?.metadata?.latitude` then reads as `undefined`). -/
structure MapNode where
  metadata : Option MapNodeMeta
deriving DecidableEq

/-- `node?.metadata?.latitude` under optional chaining. -/
def mapNodeLatitude (n : MapNode) : JSNum :=
  match n.metadata with
  | none => .undef
  | some m => m.latitude

/-- `node?.metadata?.longitude` under optional chaining. -/
def mapNodeLongitude (n : MapNode) : JSNum :=
  match n.metadata with
  | none => .undef
  | some m => m.longitude

/-- The `validNodes` filter of `src/Website/src/components/DashboardMap.js`
(lines 107-112), identical to the `MapBoundsUpdater` filter (lines 21-27):
both coordinates truthy and neither `isNaN`. -/
def dashboardMapValid (n : MapNode) : Bool :=
  truthy (mapNodeLatitude n) && truthy (mapNodeLongitude n) &&
    !jsIsNaN (mapNodeLatitude n) && !jsIsNaN (mapNodeLongitude n)

/-- Twilio environment configuration read by `src/app/api/sms/route.js`;
`none` stands for an unset (or empty, hence falsy) environment variable. -/
structure TwilioConfig where
  enabled : Bool
  accountSid : Option String
  authToken : Option String
  phoneNumber : Option String
  sdkInstalled : Bool
deriving DecidableEq

/-- The route's configuration test (route lines 29-34): enabled and all
three credentials present. -/
def twilioConfigured (c : TwilioConfig) : Bool :=
  c.enabled && c.accountSid.isSome && c.authToken.isSome && c.phoneNumber.isSome

/-- The JSON body `POST /api/sms` answers with; fields absent from a given
response are `none`.  `partSuccess` is the `partialSuccess` field of the
source. -/
structure SmsApiResponse where
  success : Bool
  configured : Option Bool
  httpStatus : Nat
  partSuccess : Option Bool
  successCount : Option Nat
  failureCount : Option Nat
  recipientsCount : Option Nat
deriving DecidableEq

/-- `POST /api/sms` (`src/app/api/sms/route.js` lines 9-131).  Returns the
response together with the list of recipients a delivery was attempted for.
`deliver` is the provider: whether Twilio accepts a given number.  Order of
checks as in the source: request validation (400s), the configuration test,
the SDK import, then one send per recipient. -/
def smsRoutePOST (c : TwilioConfig) (deliver : String → Bool)
    (recipients : List String) (message : String) :
    SmsApiResponse × List String :=
  if recipients.isEmpty then
    (⟨false, none, 400, none, none, none, none⟩, [])
  else if message = "" then
    (⟨false, none, 400, none, none, none, none⟩, [])
  else if !twilioConfigured c then
    (⟨false, some false, 200, none, none, none, some recipients.length⟩, [])
  else if !c.sdkInstalled then
    (⟨false, some true, 500, none, none, none, none⟩, [])
  else
    let successCount := (recipients.filter deliver).length
    let failureCount := (recipients.filter (fun r => !deliver r)).length
    (⟨failureCount = 0, some true, 200,
      some (decide (0 < successCount) && decide (0 < failureCount)),
      some successCount, some failureCount, some recipients.length⟩,
     recipients)

/-- What `sendSMSNotification` returns to its caller. -/
structure SmsSendResult where
  success : Bool
  configured : Bool
  notificationId : Option String
  recipientsCount : Nat
deriving DecidableEq

/-- `sendSMSNotification` from `src/lib/notifications.js` (lines 19-166):
call the SMS route; when the response's `configured` flag is falsy, write a
`notifications/{id}` record with `deliveryStatus` not_configured plus an
`sms_pending` log entry and report success false, configured false;
otherwise record the delivery outcome and the matching log type. -/
def sendSMSNotification (s : Store) (c : TwilioConfig)
    (deliver : String → Bool) (recipients : List String)
    (message alertId severity : String) (notificationId logId : String)
    (now : Nat) : Store × SmsSendResult :=
  let resp := (smsRoutePOST c deliver recipients message).1
  match resp.configured with
  | some true =>
      let status :=
        if resp.success then "sent"
        else if resp.partSuccess = some true then "partial" else "failed"
      let notificationData : NotificationRec :=
        { id := notificationId
          type := "sms"
          status := status
          alertId := alertId
          severity := severity
          message := message
          recipients := recipients
          timestamp := now
          method := "twilio"
          deliveryStatus :=
            if resp.success then "delivered"
            else if resp.partSuccess = some true then "partial" else "failed"
          successCount := resp.successCount
          failureCount := resp.failureCount }
      let logType :=
        if resp.success then "sms_sent"
        else if resp.partSuccess = some true then "sms_partial" else "sms_failed"
      let s1 : Store :=
        { s with
          notifications := alSet s.notifications notificationId notificationData
          logs := alSet s.logs logId
            { id := logId, type := logType
              message := "SMS dispatch result", timestamp := now } }
      (s1, ⟨resp.success, true, some notificationId, recipients.length⟩)
  | _ =>
      let notificationData : NotificationRec :=
        { id := notificationId
          type := "sms"
          status := "pending"
          alertId := alertId
          severity := severity
          message := message
          recipients := recipients
          timestamp := now
          method := "twilio"
          deliveryStatus := "not_configured"
          successCount := none
          failureCount := none }
      let s1 : Store :=
        { s with
          notifications := alSet s.notifications notificationId notificationData
          logs := alSet s.logs logId
            { id := logId, type := "sms_pending"
              message := "SMS notification logged, Twilio not configured"
              timestamp := now } }
      (s1, ⟨false, false, some notificationId, recipients.length⟩)

/-- The alert operations the claims cite: creation by the analytical panel
(`handleCreateAlert`, which always writes `acknowledged: false` under a
freshly generated id) and acknowledgement (`handleAcknowledge` in
`src/app/alerts/page.js`, lines 54-65, which updates an existing alert). -/
inductive AlertOp
  | create (id : String) (data : Alert)
  | ack (id : String) (who : String) (t : Nat)

/-- The field update `handleAcknowledge` performs. -/
def ackUpdate (a : Alert) (who : String) (t : Nat) : Alert :=
  { a with acknowledged := true
           acknowledgedBy := some who
           acknowledgedAt := some t }

/-- One alert operation on the `alerts` subtree.  Creation requires the
generated id to be fresh; acknowledgement merges the three fields into the
existing record. -/
inductive AlertStep : List (String × Alert) → AlertOp → List (String × Alert) → Prop
  | create {s : List (String × Alert)} {id : String} {data : Alert} :
      alGet s id = none → data.acknowledged = false →
      AlertStep s (AlertOp.create id data) (alSet s id data)
  | ack {s : List (String × Alert)} {id who : String} {t : Nat} {a : Alert} :
      alGet s id = some a →
      AlertStep s (AlertOp.ack id who t) (alSet s id (ackUpdate a who t))

/-- A sequence of alert operations. -/
inductive AlertSteps :
    List (String × Alert) → List AlertOp → List (String × Alert) → Prop
  | nil (s : List (String × Alert)) : AlertSteps s [] s
  | cons {s s1 s2 : List (String × Alert)} {op : AlertOp} {ops : List AlertOp} :
      AlertStep s op s1 → AlertSteps s1 ops s2 → AlertSteps s (op :: ops) s2

/-- One alert operation keeps an acknowledged alert acknowledged: creation
only touches fresh ids and acknowledgement only sets the flag to true. -/
theorem alertStep_preserves_ack {s s1 : List (String × Alert)} {op : AlertOp}
    (hstep : AlertStep s op s1) {id : String} {a : Alert}
    (hget : alGet s id = some a) (hack : a.acknowledged = true) :
    ∃ b : Alert, alGet s1 id = some b ∧ b.acknowledged = true := by
  cases hstep with
  | create hfresh hfalse =>
      rename_i cid data
      have hne : cid ≠ id := by
        intro h
        subst h
        rw [hget] at hfresh
        cases hfresh
      exact ⟨a, by rw [alGet_alSet_ne _ _ _ _ hne]; exact hget, hack⟩
  | ack hgetb =>
      rename_i cid who t b
      by_cases h : cid = id
      · subst h
        exact ⟨ackUpdate b who t, alGet_alSet_self .., rfl⟩
      · exact ⟨a, by rw [alGet_alSet_ne _ _ _ _ h]; exact hget, hack⟩

/-- A sequence of alert operations keeps an acknowledged alert
acknowledged. -/
theorem alertSteps_preserve_ack {s : List (String × Alert)}
    {ops : List AlertOp} {s2 : List (String × Alert)}
    (h : AlertSteps s ops s2) :
    ∀ {id : String} {a : Alert}, alGet s id = some a → a.acknowledged = true →
      ∃ b : Alert, alGet s2 id = some b ∧ b.acknowledged = true := by
  induction h with
  | nil s => exact fun hget hack => ⟨_, hget, hack⟩
  | cons hstep _ ih =>
      intro id a hget hack
      obtain ⟨b, hb, hbAck⟩ := alertStep_preserves_ack hstep hget hack
      exact ih hb hbAck

/-- The parsed JSON preview `confirmImportData` consumes (admin page lines
603-618): each section, when present, wholesale-replaces the corresponding
subtree. -/
structure ImportPreview where
  nodes : Option (List (String × NodeData))
  alerts : Option (List (String × Alert))
  contacts : Option (List (String × Contact))
deriving DecidableEq

/-- `confirmImportData` (admin page lines 620-647): for each section present
in the imported JSON, overwrite the whole subtree with the imported map,
then write a data_import log entry.  The imported records are externally
supplied and replace whatever was stored, acknowledgement flags included. -/
def confirmImportData (s : Store) (p : ImportPreview) (logId : String)
    (now : Nat) : Store :=
  let s1 : Store :=
    match p.nodes with
    | some n => { s with nodes := n }
    | none => s
  let s2 : Store :=
    match p.alerts with
    | some a => { s1 with alerts := a }
    | none => s1
  let s3 : Store :=
    match p.contacts with
    | some c => { s2 with contacts := c }
    | none => s2
  { s3 with
    logs := alSet s3.logs logId
      ⟨logId, "data_import", "Historical data was imported", now⟩ }

/-- Follows the words of the spec's invariant (spec section 3, restated in
claim C7): visible exactly when both coordinates are present as numeric
values within range, latitude in [-90, 90] and longitude in [-180, 180].
Stated from the spec, to be compared with `dashboardMapValid`. -/
def specMapVisible (n : MapNode) : Bool :=
  match mapNodeLatitude n, mapNodeLongitude n with
  | .num a, .num b =>
      decide (-90 ≤ a) && decide (a ≤ 90) && decide (-180 ≤ b) && decide (b ≤ 180)
  | _, _ => false

end Bruteforce

namespace Bruteforce

/-- Claim C4: the status classifiers map a last-update timestamp to a status
as claimed: a missing timestamp and one twenty minutes old are offline in
both classifiers, one four minutes old is online in both, one ten minutes
old is warning in the dashboard classifier of `app/page.js`, while the
shared `lib/utils.js` classifier reports it offline and never returns
warning at all. -/
theorem claim_C4_status_classifier (now : Nat) (h : 1200000 < now) :
    Utils.getNodeStatus JSTime.null now = NodeStatus.offline ∧
    HomePage.getNodeStatus JSTime.null now = NodeStatus.offline ∧
    Utils.getNodeStatus (JSTime.num (now - 240000)) now = NodeStatus.online ∧
    HomePage.getNodeStatus (JSTime.num (now - 240000)) now = NodeStatus.online ∧
    HomePage.getNodeStatus (JSTime.num (now - 600000)) now = NodeStatus.warning ∧
    Utils.getNodeStatus (JSTime.num (now - 600000)) now = NodeStatus.offline ∧
    (∀ t : JSTime, Utils.getNodeStatus t now ≠ NodeStatus.warning) ∧
    Utils.getNodeStatus (JSTime.num (now - 1200000)) now = NodeStatus.offline ∧
    HomePage.getNodeStatus (JSTime.num (now - 1200000)) now = NodeStatus.offline := by
  refine ⟨rfl, rfl, ?_, ?_, ?_, ?_, ?_, ?_, ?_⟩
  · simp only [Utils.getNodeStatus]
    rw [if_neg (by omega : ¬(now - 240000 = 0)),
      if_pos (by omega : (now : Int) - ((now - 240000 : Nat) : Int) < 5 * 60 * 1000)]
  · simp only [HomePage.getNodeStatus]
    rw [if_neg (by omega : ¬(now - 240000 = 0)),
      if_pos (by omega : (now : Int) - ((now - 240000 : Nat) : Int) < 5 * 60 * 1000)]
  · simp only [HomePage.getNodeStatus]
    rw [if_neg (by omega : ¬(now - 600000 = 0)),
      if_neg (by omega : ¬((now : Int) - ((now - 600000 : Nat) : Int) < 5 * 60 * 1000)),
      if_pos (by omega : (now : Int) - ((now - 600000 : Nat) : Int) < 15 * 60 * 1000)]
  · simp only [Utils.getNodeStatus]
    rw [if_neg (by omega : ¬(now - 600000 = 0)),
      if_neg (by omega : ¬((now : Int) - ((now - 600000 : Nat) : Int) < 5 * 60 * 1000))]
  · intro t
    cases t with
    | null => simp [Utils.getNodeStatus]
    | str secs =>
        simp only [Utils.getNodeStatus]
        split <;> simp
    | num ms =>
        simp only [Utils.getNodeStatus]
        split
        · simp
        · split <;> simp
  · simp only [Utils.getNodeStatus]
    rw [if_neg (by omega : ¬(now - 1200000 = 0)),
      if_neg (by omega : ¬((now : Int) - ((now - 1200000 : Nat) : Int) < 5 * 60 * 1000))]
  · simp only [HomePage.getNodeStatus]
    rw [if_neg (by omega : ¬(now - 1200000 = 0)),
      if_neg (by omega : ¬((now : Int) - ((now - 1200000 : Nat) : Int) < 5 * 60 * 1000)),
      if_neg (by omega : ¬((now : Int) - ((now - 1200000 : Nat) : Int) < 15 * 60 * 1000))]

/-- Witness for C4 at the concrete time 1200001 ms. -/
theorem claim_C4_witness :
    1200000 < 1200001 ∧
      Utils.getNodeStatus JSTime.null 1200001 = NodeStatus.offline :=
  ⟨by decide, (claim_C4_status_classifier 1200001 (by decide)).1⟩

/-- Claim C10 fails at t = 0: the decimal string of 0 is a truthy JS value
and classifies by its age, while the number 0 is falsy and is reported
offline unconditionally; at current time 0 the two disagree. -/
theorem claim_C10_counterexample :
    Utils.getNodeStatus (JSTime.str 0) 0 = NodeStatus.online ∧
    Utils.getNodeStatus (JSTime.num (0 * 1000)) 0 = NodeStatus.offline := by
  decide

/-- Claim C10 amended: for every positive integer t the shared classifier
treats the decimal seconds-string of t and the millisecond number t * 1000
the same, for every current time. -/
theorem claim_C10_amended (t now : Nat) (h : 1 ≤ t) :
    Utils.getNodeStatus (JSTime.str t) now =
      Utils.getNodeStatus (JSTime.num (t * 1000)) now := by
  simp only [Utils.getNodeStatus]
  rw [if_neg (by omega : ¬(t * 1000 = 0))]

/-- Witness for the amended C10 at t = 1, now = 0. -/
theorem claim_C10_witness :
    1 ≤ 1 ∧
      Utils.getNodeStatus (JSTime.str 1) 0 =
        Utils.getNodeStatus (JSTime.num (1 * 1000)) 0 :=
  ⟨le_refl 1, claim_C10_amended 1 0 (le_refl 1)⟩

/-- A contact associated to node1, for the C5 scenario. -/
def contactAsha : Contact :=
  { id := "contact_1"
    name := "Asha"
    phone := "+919876543210"
    email := ""
    associatedNodes := ["node1"]
    notificationPreference := "sms"
    createdAt := 1
    lastUpdated := 1 }

/-- A contact associated to an unrelated node, for the C5 scenario. -/
def contactRavi : Contact :=
  { id := "contact_2"
    name := "Ravi"
    phone := "+919999999999"
    email := ""
    associatedNodes := ["node7"]
    notificationPreference := "sms"
    createdAt := 1
    lastUpdated := 1 }

/-- The stored contacts of the C5 scenario: exactly one of them is
associated to a node of the alert. -/
def demoContacts : List (String × Contact) :=
  [("contact_1", contactAsha), ("contact_2", contactRavi)]

/-- Claim C5: the recipient computation picks exactly the contacts whose
associated-node set meets the affected-node set; in the scenario of a
critical alert affecting node1 and node2 with one contact associated to
node1, the phone list is exactly that contact's phone. -/
theorem claim_C5_recipients :
    (∀ (affectedNodes : List String) (contacts : List (String × Contact))
        (c : Contact),
        c ∈ Admin.computeRecipients affectedNodes contacts ↔
          c ∈ contacts.map Prod.snd ∧
            ∃ nid ∈ c.associatedNodes, nid ∈ affectedNodes)
  ∧ (Admin.computeRecipients ["node1", "node2"] demoContacts).map Contact.phone
      = ["+919876543210"] := by
  constructor
  · intro affectedNodes contacts c
    simp only [Admin.computeRecipients]
    split
    · rename_i hemp
      rw [List.isEmpty_iff] at hemp
      subst hemp
      simp
    · simp [List.mem_filter, List.any_eq_true, List.elem_iff]
  · decide

/-- Witness for C5 instantiating the characterization at the scenario. -/
theorem claim_C5_witness :
    contactAsha ∈ Admin.computeRecipients ["node1", "node2"] demoContacts ↔
      contactAsha ∈ demoContacts.map Prod.snd ∧
        ∃ nid ∈ contactAsha.associatedNodes, nid ∈ ["node1", "node2"] :=
  claim_C5_recipients.1 ["node1", "node2"] demoContacts contactAsha

/-- Claim C6: phone validation accepts exactly the inputs whose digit count
is 10, or 12 with a leading 91; the two sample numbers normalize to
+919876543210; an invalid phone fails contact creation with a validation
error and no write, and a valid one is stored with the normalized phone. -/
theorem claim_C6_phone :
    (∀ phone : String,
        Utils.isValidPhoneNumber phone = true ↔
          ((Utils.cleanedDigits phone).length = 10 ∨
            ((Utils.cleanedDigits phone).length = 12 ∧
              Utils.startsWith91 (Utils.cleanedDigits phone) = true)))
  ∧ Utils.formatPhoneNumber "9876543210" = "+919876543210"
  ∧ Utils.formatPhoneNumber "919876543210" = "+919876543210"
  ∧ (∀ (s : Store) (f : Contacts.ContactForm) (cid : String) (now : Nat),
        Utils.isValidPhoneNumber f.phone = false →
          Contacts.handleSubmit s f cid now = ⟨s, some AppError.validation⟩)
  ∧ (∀ (s : Store) (f : Contacts.ContactForm) (cid : String) (now : Nat),
        Utils.isValidPhoneNumber f.phone = true →
          ∃ cd : Contact,
            alGet (Contacts.handleSubmit s f cid now).store.contacts cid
              = some cd ∧
            cd.phone = Utils.formatPhoneNumber f.phone) := by
  refine ⟨?_, by decide, by decide, ?_, ?_⟩
  · intro phone
    simp [Utils.isValidPhoneNumber]
  · intro s f cid now h
    simp [Contacts.handleSubmit, h]
  · intro s f cid now h
    simp only [Contacts.handleSubmit, h, Bool.not_true, Bool.false_eq_true,
      if_false]
    exact ⟨_, alGet_alSet_self .., rfl⟩

/-- Witness for C6 on a concrete invalid phone (9 digits). -/
theorem claim_C6_witness :
    Utils.isValidPhoneNumber "987654321" = false ∧
      Contacts.handleSubmit
          ⟨[], [], [], [], [], []⟩
          ⟨"A", "987654321", "", [], "sms"⟩ "contact_9" 7
        = ⟨⟨[], [], [], [], [], []⟩, some AppError.validation⟩ :=
  ⟨by decide,
    (claim_C6_phone.2.2.2.1 ⟨[], [], [], [], [], []⟩
      ⟨"A", "987654321", "", [], "sms"⟩ "contact_9" 7 (by decide))⟩

/-- A node record whose latitude is numeric but out of range; the map filter
admits it while the spec invariant excludes it. -/
def nodeOutOfRange : MapNode := ⟨some ⟨JSNum.num 200, JSNum.num 10⟩⟩

/-- Claim C7 fails: the map's valid-node filter checks only truthiness and
non-NaN, never the coordinate ranges, so a node at latitude 200 is rendered
although the spec's invariant makes it invisible. -/
theorem claim_C7_counterexample :
    dashboardMapValid nodeOutOfRange = true ∧
      specMapVisible nodeOutOfRange = false := by
  decide

/-- Claim C7 amended: a node is visible on the map iff both coordinates are
present as numeric values that are nonzero; range is never checked, and a
zero coordinate (falsy in JS) hides the node.  Absent or non-numeric
coordinates are silently excluded, as the claim states. -/
theorem claim_C7_amended (n : MapNode) :
    dashboardMapValid n = true ↔
      ∃ (m : MapNodeMeta) (a b : Rat),
        n.metadata = some m ∧ m.latitude = JSNum.num a ∧
          m.longitude = JSNum.num b ∧ a ≠ 0 ∧ b ≠ 0 := by
  obtain ⟨meta⟩ := n
  cases meta with
  | none =>
      simp [dashboardMapValid, mapNodeLatitude, mapNodeLongitude, truthy,
        jsIsNaN]
  | some m =>
      obtain ⟨la, lo⟩ := m
      cases la <;> cases lo <;>
        simp [dashboardMapValid, mapNodeLatitude, mapNodeLongitude, truthy,
          jsIsNaN]

/-- Witness for the amended C7 at the concrete node of the scenario. -/
theorem claim_C7_witness :
    dashboardMapValid nodeOutOfRange = true ↔
      ∃ (m : MapNodeMeta) (a b : Rat),
        nodeOutOfRange.metadata = some m ∧ m.latitude = JSNum.num a ∧
          m.longitude = JSNum.num b ∧ a ≠ 0 ∧ b ≠ 0 :=
  claim_C7_amended nodeOutOfRange

/-- When both validation checks pass, `handleCreateAlert` writes the alert,
all back-references and the log entry, and reports no error. -/
theorem handleCreateAlert_success (s : Store) (form : Admin.AlertForm)
    (alertId logId : String) (now : Nat)
    (hlen : form.message.length ≤ 500) (hne : form.affectedNodes ≠ []) :
    Admin.handleCreateAlert s form alertId logId now =
      ⟨{ s with
          alerts := alSet s.alerts alertId
            (Admin.alertRecord form alertId now s.contacts)
          nodeAlerts :=
            form.affectedNodes.foldl
              (fun acc nodeId =>
                alSet acc (nodeId, alertId) (Admin.backRef form alertId now))
              s.nodeAlerts
          logs := alSet s.logs logId
            ⟨logId, "alert_triggered", "Manual alert created", now⟩ },
        none⟩ := by
  have hemp : form.affectedNodes.isEmpty = false := by
    cases hl : form.affectedNodes with
    | nil => exact absurd hl hne
    | cons a t => rfl
  simp only [Admin.handleCreateAlert]
  rw [if_neg (Nat.not_lt.mpr hlen),
    if_neg (by simp [hemp] : ¬form.affectedNodes.isEmpty = true),
    alGet_alSet_self]

/-- Claim C1: alert creation rejects an over-long message or an empty node
selection with a validation error and no write; otherwise it succeeds, the
stored alert's `affectedNodes` is exactly the input list, and every listed
node gains a back-reference at `nodes/{nodeId}/alerts/{alertId}` whose
`alertId` and `severity` match the alert. -/
theorem claim_C1_createAlert :
    (∀ (s : Store) (form : Admin.AlertForm) (alertId logId : String)
        (now : Nat),
        form.message.length ≤ 500 → form.affectedNodes ≠ [] →
        (Admin.handleCreateAlert s form alertId logId now).error = none ∧
        ∃ a : Alert,
          alGet (Admin.handleCreateAlert s form alertId logId now).store.alerts
              alertId = some a ∧
          a.affectedNodes = form.affectedNodes ∧
          a.severity = form.severity ∧
          ∀ nid ∈ form.affectedNodes,
            ∃ r : NodeAlertRef,
              alGet (Admin.handleCreateAlert s form alertId logId
                  now).store.nodeAlerts (nid, alertId) = some r ∧
              r.alertId = alertId ∧ r.severity = form.severity)
  ∧ (∀ (s : Store) (form : Admin.AlertForm) (alertId logId : String)
        (now : Nat),
        500 < form.message.length ∨ form.affectedNodes = [] →
        Admin.handleCreateAlert s form alertId logId now
          = ⟨s, some AppError.validation⟩) := by
  constructor
  · intro s form alertId logId now hlen hne
    rw [handleCreateAlert_success s form alertId logId now hlen hne]
    refine ⟨rfl, Admin.alertRecord form alertId now s.contacts,
      alGet_alSet_self .., rfl, rfl, ?_⟩
    intro nid hnid
    exact ⟨Admin.backRef form alertId now,
      alGet_foldl_alSet (fun m => (m, alertId)) _ form.affectedNodes
        s.nodeAlerts nid (Or.inl hnid), rfl, rfl⟩
  · intro s form alertId logId now h
    by_cases hm : 500 < form.message.length
    · simp [Admin.handleCreateAlert, hm]
    · rcases h with h | h
      · exact absurd h hm
      · simp [Admin.handleCreateAlert, hm, h]

/-- Witness for C1 on a concrete alert over the scenario store. -/
theorem claim_C1_witness :
    ("flood risk" : String).length ≤ 500 ∧
      (Admin.handleCreateAlert ⟨[], [], [], demoContacts, [], []⟩
          ⟨"flood risk", "critical", ["node1", "node2"], false⟩
          "alert_1" "log_1" 9).error = none :=
  ⟨by decide,
    (claim_C1_createAlert.1 ⟨[], [], [], demoContacts, [], []⟩
      ⟨"flood risk", "critical", ["node1", "node2"], false⟩
      "alert_1" "log_1" 9 (by decide) (by decide)).1⟩

/-- With a fresh id, non-empty id and name, and parseable in-range
coordinates, `validateForm` raises nothing. -/
theorem validateForm_none (s : Store) (f : Register.RegForm) (lat lon : Rat)
    (hdup : nodePathExists s f.nodeId = false)
    (hid : f.nodeId ≠ "") (hname : f.name ≠ "")
    (hlat : f.latitude = some lat) (hlon : f.longitude = some lon)
    (h1 : -90 ≤ lat) (h2 : lat ≤ 90) (h3 : -180 ≤ lon) (h4 : lon ≤ 180) :
    Register.validateForm s f = none := by
  simp [Register.validateForm, hdup, hid, hname, hlat, hlon,
    Utils.isValidLatitude, Utils.isValidLongitude, h1, h2, h3, h4]

/-- Under the same hypotheses, `handleSubmit` writes the node record and
then reports a verification error exactly when a coordinate reads back
falsy, that is equal to zero. -/
theorem handleSubmit_writes (s : Store) (f : Register.RegForm)
    (nowMs : Nat) (nowIso : String) (lat lon : Rat)
    (hdup : nodePathExists s f.nodeId = false)
    (hid : f.nodeId ≠ "") (hname : f.name ≠ "")
    (hlat : f.latitude = some lat) (hlon : f.longitude = some lon)
    (h1 : -90 ≤ lat) (h2 : lat ≤ 90) (h3 : -180 ≤ lon) (h4 : lon ≤ 180) :
    Register.handleSubmit s f nowMs nowIso =
      ⟨{ s with
          nodes := alSet s.nodes f.nodeId
            (Register.nodeRecord f lat lon nowMs nowIso) },
        if lat = 0 ∨ lon = 0 then some AppError.verification else none⟩ := by
  simp only [Register.handleSubmit,
    validateForm_none s f lat lon hdup hid hname hlat hlon h1 h2 h3 h4,
    hlat, hlon, alGet_alSet_self]
  split
  · rename_i hz
    rw [if_pos]
    simp only [Register.nodeRecord] at hz
    simpa using hz
  · rename_i hz
    rw [if_neg]
    simp only [Register.nodeRecord] at hz
    simpa using hz

/-- A parseable out-of-range coordinate makes `validateForm` fail with a
validation error (given a fresh id and the required fields). -/
theorem validateForm_out_of_range (s : Store) (f : Register.RegForm)
    (lat lon : Rat) (hdup : nodePathExists s f.nodeId = false)
    (hid : f.nodeId ≠ "") (hname : f.name ≠ "")
    (hlat : f.latitude = some lat) (hlon : f.longitude = some lon)
    (hbad : ¬(-90 ≤ lat ∧ lat ≤ 90) ∨ ¬(-180 ≤ lon ∧ lon ≤ 180)) :
    Register.validateForm s f = some AppError.validation := by
  simp only [Register.validateForm, hdup, hlat, hlon]
  rw [if_neg (by simp), if_neg (by simp [hid, hname])]
  rcases hbad with h | h
  · have hl : Utils.isValidLatitude lat = false := by
      simp only [Utils.isValidLatitude]
      rcases not_and_or.mp h with h1 | h1 <;> simp [decide_eq_false h1]
    simp [hl]
  · by_cases hv : Utils.isValidLatitude lat = true
    · have hl : Utils.isValidLongitude lon = false := by
        simp only [Utils.isValidLongitude]
        rcases not_and_or.mp h with h1 | h1 <;> simp [decide_eq_false h1]
      simp [hv, hl]
    · have hl : Utils.isValidLatitude lat = false := by
        revert hv
        cases Utils.isValidLatitude lat <;> simp
      simp [hl]

/-- Claim C2 amended: with a fresh id, the required fields, and in-range
nonzero coordinates, registration succeeds and the stored metadata
round-trips the same numeric values; with an in-range zero coordinate the
node is still written but the read-back verification reports a
verification error (the JS falsy check); with an out-of-range coordinate
registration fails with a validation error and no write. -/
theorem claim_C2_registration :
    (∀ (s : Store) (f : Register.RegForm) (nowMs : Nat) (nowIso : String)
        (lat lon : Rat),
        nodePathExists s f.nodeId = false → f.nodeId ≠ "" → f.name ≠ "" →
        f.latitude = some lat → f.longitude = some lon →
        -90 ≤ lat → lat ≤ 90 → -180 ≤ lon → lon ≤ 180 → lat ≠ 0 → lon ≠ 0 →
        (Register.handleSubmit s f nowMs nowIso).error = none ∧
        ∃ nd : NodeData,
          alGet (Register.handleSubmit s f nowMs nowIso).store.nodes f.nodeId
              = some nd ∧
          nd.metadata.latitude = lat ∧ nd.metadata.longitude = lon)
  ∧ (∀ (s : Store) (f : Register.RegForm) (nowMs : Nat) (nowIso : String)
        (lat lon : Rat),
        nodePathExists s f.nodeId = false → f.nodeId ≠ "" → f.name ≠ "" →
        f.latitude = some lat → f.longitude = some lon →
        -90 ≤ lat → lat ≤ 90 → -180 ≤ lon → lon ≤ 180 → lat = 0 ∨ lon = 0 →
        (Register.handleSubmit s f nowMs nowIso).error
            = some AppError.verification ∧
        ∃ nd : NodeData,
          alGet (Register.handleSubmit s f nowMs nowIso).store.nodes f.nodeId
              = some nd ∧
          nd.metadata.latitude = lat ∧ nd.metadata.longitude = lon)
  ∧ (∀ (s : Store) (f : Register.RegForm) (nowMs : Nat) (nowIso : String)
        (lat lon : Rat),
        nodePathExists s f.nodeId = false → f.nodeId ≠ "" → f.name ≠ "" →
        f.latitude = some lat → f.longitude = some lon →
        (¬(-90 ≤ lat ∧ lat ≤ 90) ∨ ¬(-180 ≤ lon ∧ lon ≤ 180)) →
        Register.handleSubmit s f nowMs nowIso
          = ⟨s, some AppError.validation⟩) := by
  refine ⟨?_, ?_, ?_⟩
  · intro s f nowMs nowIso lat lon hdup hid hname hlat hlon h1 h2 h3 h4 h5 h6
    rw [handleSubmit_writes s f nowMs nowIso lat lon hdup hid hname hlat hlon
      h1 h2 h3 h4]
    rw [if_neg (by tauto : ¬(lat = 0 ∨ lon = 0))]
    exact ⟨rfl, Register.nodeRecord f lat lon nowMs nowIso,
      alGet_alSet_self .., rfl, rfl⟩
  · intro s f nowMs nowIso lat lon hdup hid hname hlat hlon h1 h2 h3 h4 h0
    rw [handleSubmit_writes s f nowMs nowIso lat lon hdup hid hname hlat hlon
      h1 h2 h3 h4]
    rw [if_pos h0]
    exact ⟨rfl, Register.nodeRecord f lat lon nowMs nowIso,
      alGet_alSet_self .., rfl, rfl⟩
  · intro s f nowMs nowIso lat lon hdup hid hname hlat hlon hbad
    have hv := validateForm_out_of_range s f lat lon hdup hid hname hlat hlon
      hbad
    simp [Register.handleSubmit, hv]

/-- The empty store. -/
def emptyStore : Store := ⟨[], [], [], [], [], []⟩

/-- The registration form of the C2 counterexample: an equator node at
latitude 0 with every other field valid. -/
def regFormZero : Register.RegForm :=
  { nodeId := "node_eq"
    type := "node"
    name := "Equator Station"
    latitude := some 0
    longitude := some 77
    altitude := none
    installedBy := "Team"
    description := ""
    nearbyNodes := [] }

/-- Claim C2 fails as stated: latitude 0 and longitude 77 are in range and
all required fields are present, yet registration reports a verification
error (the read-back check treats the stored 0 as a missing coordinate), so
it does not succeed. -/
theorem claim_C2_counterexample :
    ((-90 : Rat) ≤ 0 ∧ (0 : Rat) ≤ 90 ∧ (-180 : Rat) ≤ 77 ∧ (77 : Rat) ≤ 180) ∧
      (Register.handleSubmit emptyStore regFormZero 1000 "iso").error
        = some AppError.verification := by
  decide

/-- The registration form of the C2 witness, with nonzero in-range
coordinates. -/
def regFormOk : Register.RegForm :=
  { nodeId := "node9"
    type := "node"
    name := "Ridge Station"
    latitude := some 28
    longitude := some 77
    altitude := none
    installedBy := "Team"
    description := ""
    nearbyNodes := [] }

/-- Witness for the amended C2 at a concrete in-range registration. -/
theorem claim_C2_witness :
    (Register.handleSubmit emptyStore regFormOk 1000 "iso").error = none :=
  (claim_C2_registration.1 emptyStore regFormOk 1000 "iso" 28 77 (by decide)
    (by decide) (by decide) rfl rfl (by decide) (by decide) (by decide)
    (by decide) (by decide) (by decide)).1

/-- Claim C3: registering an id that already exists fails with a duplicate
id error and returns the store unchanged, so the existing record is intact
and no path is written. -/
theorem claim_C3_duplicate_id (s : Store) (f : Register.RegForm)
    (nowMs : Nat) (nowIso : String)
    (h : nodePathExists s f.nodeId = true) :
    Register.handleSubmit s f nowMs nowIso = ⟨s, some AppError.duplicateId⟩ := by
  have hv : Register.validateForm s f = some AppError.duplicateId := by
    simp [Register.validateForm, h]
  simp [Register.handleSubmit, hv]

/-- A store already holding a node registered as node9, for the C3
witness. -/
def demoStoreWithNode : Store :=
  ⟨[("node9", Register.nodeRecord regFormOk 28 77 1000 "iso")],
    [], [], [], [], []⟩

/-- Witness for C3: re-registering node9 is rejected and changes nothing. -/
theorem claim_C3_witness :
    nodePathExists demoStoreWithNode regFormOk.nodeId = true ∧
      Register.handleSubmit demoStoreWithNode regFormOk 2000 "iso2"
        = ⟨demoStoreWithNode, some AppError.duplicateId⟩ :=
  ⟨by decide,
    claim_C3_duplicate_id demoStoreWithNode regFormOk 2000 "iso2" (by decide)⟩

/-- Claim C8 amended: over every sequence of the alert lifecycle operations
(creation under a fresh generated id and acknowledgement) an acknowledged
alert stays acknowledged, and a single acknowledgement sets the flag
together with the acknowledger and the timestamp (so repeating it on an
already-acknowledged alert leaves the flag true).  The bulk data import is
not among these operations: it wholesale-overwrites the alerts subtree and
can reverse acknowledgement, as `claim_C8_counterexample` shows. -/
theorem claim_C8_ack_monotonic :
    (∀ (s : List (String × Alert)) (ops : List AlertOp)
        (s2 : List (String × Alert)),
        AlertSteps s ops s2 →
        ∀ (id : String) (a : Alert),
          alGet s id = some a → a.acknowledged = true →
          ∀ b : Alert, alGet s2 id = some b → b.acknowledged = true)
  ∧ (∀ (s s2 : List (String × Alert)) (id who : String) (t : Nat),
        AlertStep s (AlertOp.ack id who t) s2 →
        ∃ b : Alert,
          alGet s2 id = some b ∧ b.acknowledged = true ∧
          b.acknowledgedBy = some who ∧ b.acknowledgedAt = some t) := by
  constructor
  · intro s ops s2 h id a hget hack b hb
    obtain ⟨b1, hb1, hackb⟩ := alertSteps_preserve_ack h hget hack
    rw [hb] at hb1
    injection hb1 with he
    exact he ▸ hackb
  · intro s s2 id who t h
    cases h with
    | ack hget =>
        rename_i a
        exact ⟨ackUpdate a who t, alGet_alSet_self .., rfl, rfl, rfl⟩

/-- An already-acknowledged alert record, for the C8 witness. -/
def ackedDemoAlert : Alert :=
  { id := "alert_1"
    type := "manual"
    severity := "critical"
    message := "flood risk"
    affectedNodes := ["node1"]
    timestamp := 1
    acknowledged := true
    acknowledgedBy := some "analytical"
    acknowledgedAt := some 2
    sentSMS := false
    smsSentAt := none
    recipients := []
    createdBy := "analytical"
    source := "analytical_panel" }

/-- The alerts subtree of the C8 witness. -/
def demoAlerts : List (String × Alert) := [("alert_1", ackedDemoAlert)]

/-- One concrete operation sequence: re-acknowledging the acknowledged
alert. -/
theorem demoAlertChain :
    AlertSteps demoAlerts [AlertOp.ack "alert_1" "analytical" 5]
      (alSet demoAlerts "alert_1" (ackUpdate ackedDemoAlert "analytical" 5)) :=
  AlertSteps.cons (AlertStep.ack (by decide)) (AlertSteps.nil _)

/-- Witness for C8 along the concrete re-acknowledgement sequence. -/
theorem claim_C8_witness :
    (ackUpdate ackedDemoAlert "analytical" 5).acknowledged = true :=
  claim_C8_ack_monotonic.1 demoAlerts [AlertOp.ack "alert_1" "analytical" 5]
    (alSet demoAlerts "alert_1" (ackUpdate ackedDemoAlert "analytical" 5))
    demoAlertChain "alert_1" ackedDemoAlert (by decide) rfl
    (ackUpdate ackedDemoAlert "analytical" 5) (by decide)

/-- The same alert before acknowledgement, as an earlier export would have
dumped it. -/
def unackedDemoAlert : Alert :=
  { ackedDemoAlert with
      acknowledged := false
      acknowledgedBy := none
      acknowledgedAt := none }

/-- A store holding the acknowledged alert. -/
def demoAlertStore : Store :=
  ⟨[], [], demoAlerts, [], [], []⟩

/-- An import preview carrying the pre-acknowledgement dump of the alerts
subtree. -/
def demoImportPreview : ImportPreview :=
  ⟨none, some [("alert_1", unackedDemoAlert)], none⟩

/-- Claim C8 fails as stated: the bulk import operation of the analytical
panel overwrites the alerts subtree with externally supplied records, so
importing a dump taken before acknowledgement transitions the stored
alert's acknowledged field from true back to false. -/
theorem claim_C8_counterexample :
    alGet demoAlertStore.alerts "alert_1" = some ackedDemoAlert ∧
    ackedDemoAlert.acknowledged = true ∧
    alGet (confirmImportData demoAlertStore demoImportPreview "log_2"
        11).alerts "alert_1" = some unackedDemoAlert ∧
    unackedDemoAlert.acknowledged = false := by
  decide

/-- When the provider is unconfigured the SMS route answers success false,
configured false, attempting no delivery. -/
theorem smsRoutePOST_unconfigured (c : TwilioConfig) (deliver : String → Bool)
    (recipients : List String) (message : String)
    (hconf : twilioConfigured c = false) (hrec : recipients ≠ [])
    (hmsg : message ≠ "") :
    smsRoutePOST c deliver recipients message =
      (⟨false, some false, 200, none, none, none, some recipients.length⟩,
        []) := by
  have hemp : recipients.isEmpty = false := by
    cases h : recipients with
    | nil => exact absurd h hrec
    | cons a t => rfl
  simp [smsRoutePOST, hemp, hmsg, hconf]

/-- Claim C9: with the provider unconfigured, the dispatch endpoint returns
configured false without attempting any delivery, and the caller logs only:
it writes a notification record with deliveryStatus not_configured plus an
sms_pending log entry and returns success false, configured false. -/
theorem claim_C9_sms_unconfigured (c : TwilioConfig) (deliver : String → Bool)
    (recipients : List String)
    (message alertId severity notificationId logId : String) (s : Store)
    (now : Nat) (hconf : twilioConfigured c = false)
    (hrec : recipients ≠ []) (hmsg : message ≠ "") :
    (smsRoutePOST c deliver recipients message).1.configured = some false ∧
    (smsRoutePOST c deliver recipients message).1.success = false ∧
    (smsRoutePOST c deliver recipients message).2 = [] ∧
    (sendSMSNotification s c deliver recipients message alertId severity
        notificationId logId now).2.success = false ∧
    (sendSMSNotification s c deliver recipients message alertId severity
        notificationId logId now).2.configured = false ∧
    (∃ nd : NotificationRec,
      alGet (sendSMSNotification s c deliver recipients message alertId
          severity notificationId logId now).1.notifications notificationId
        = some nd ∧
      nd.deliveryStatus = "not_configured" ∧ nd.type = "sms" ∧
      nd.recipients = recipients) ∧
    (∃ le : LogEntry,
      alGet (sendSMSNotification s c deliver recipients message alertId
          severity notificationId logId now).1.logs logId = some le ∧
      le.type = "sms_pending") := by
  have hroute := smsRoutePOST_unconfigured c deliver recipients message hconf
    hrec hmsg
  refine ⟨by rw [hroute], by rw [hroute], by rw [hroute], ?_, ?_, ?_, ?_⟩
  · simp only [sendSMSNotification, hroute]
  · simp only [sendSMSNotification, hroute]
  · simp only [sendSMSNotification, hroute]
    exact ⟨_, alGet_alSet_self .., rfl, rfl, rfl⟩
  · simp only [sendSMSNotification, hroute]
    exact ⟨_, alGet_alSet_self .., rfl⟩

/-- An entirely unconfigured provider, for the C9 witness. -/
def unconfiguredTwilio : TwilioConfig :=
  { enabled := false
    accountSid := none
    authToken := none
    phoneNumber := none
    sdkInstalled := false }

/-- Witness for C9 at a concrete unconfigured dispatch. -/
theorem claim_C9_witness :
    (smsRoutePOST unconfiguredTwilio (fun _ => false) ["+919876543210"]
        "m").1.configured = some false :=
  (claim_C9_sms_unconfigured unconfiguredTwilio (fun _ => false)
    ["+919876543210"] "m" "alert_1" "critical" "notif_1" "log_1" emptyStore 9
    (by decide) (by decide) (by decide)).1

end Bruteforce
